import Mathlib

/-!
Shallow embedding of the VitalSignal risk-scoring engine
(`src/risk_calculator.py` together with the data model of `src/models.py`).

Python floats are modelled as rationals (`ℚ`); every numeric constant of the
source is a decimal fraction, so the arithmetic of the engine is exact on `ℚ`.
Python `datetime` values are modelled as integer timestamps in seconds;
`timedelta.days` is floor division of the difference by 86400.
Optional fields are `Option` values, and Python truthiness of an optional
float (`None` and `0.0` are falsy) is made explicit in `optRatTruthy`.
-/

namespace VitalSignal

/-- `DiseaseSeverity` enum of `models.py`. -/
inductive DiseaseSeverity where
  | pandemic
  | epidemic
  | outbreak
  | cluster
  | sporadic
deriving DecidableEq, Repr

/-- String payload of the `DiseaseSeverity` enum members. -/
def DiseaseSeverity.value : DiseaseSeverity → String
  | .pandemic => "pandemic"
  | .epidemic => "epidemic"
  | .outbreak => "outbreak"
  | .cluster => "cluster"
  | .sporadic => "sporadic"

/-- `RiskLevel` enum of `models.py`. -/
inductive RiskLevel where
  | critical
  | high
  | medium
  | low
  | minimal
deriving DecidableEq, Repr

/-- `ActionType` enum of `models.py`. -/
inductive ActionType where
  | immediate_alert
  | email_notification
  | log_only
  | ignore
deriving DecidableEq, Repr

/-- `HealthCondition` of `models.py` (fields the engine reads). -/
structure HealthCondition where
  name : String
  severity : String := "moderate"
deriving DecidableEq, Repr

/-- `FamilyMember` of `models.py`. -/
structure FamilyMember where
  name : String
  relationship : String
  location : String
  latitude : Option ℚ := none
  longitude : Option ℚ := none
deriving DecidableEq, Repr

/-- `TravelPlan` of `models.py`; datetimes as integer timestamps (seconds). -/
structure TravelPlan where
  destination : String
  departure_date : ℤ
  return_date : ℤ
deriving DecidableEq, Repr

/-- `UserPreferences` of `models.py` (fields the engine reads). -/
structure UserPreferences where
  risk_tolerance : String := "moderate"
  preferred_language : String := "en"
  wants_images : Bool := true
  wants_translations : Bool := false
deriving DecidableEq, Repr

/-- `UserProfile` of `models.py` (fields the engine reads); the
`learned_weights` dict is an association list with unique keys. -/
structure UserProfile where
  user_id : String
  name : String
  age : ℤ
  location : String
  latitude : Option ℚ := none
  longitude : Option ℚ := none
  health_conditions : List HealthCondition := []
  family_members : List FamilyMember := []
  travel_plans : List TravelPlan := []
  preferences : UserPreferences := {}
  learned_weights : List (String × ℚ) := []
deriving DecidableEq, Repr

/-- `HealthAlert` of `models.py` (fields the engine reads). -/
structure HealthAlert where
  alert_id : String
  title : String := ""
  description : String := ""
  disease : String
  location : String
  latitude : Option ℚ := none
  longitude : Option ℚ := none
  severity : DiseaseSeverity
  mortality_rate : Option ℚ := none
deriving DecidableEq, Repr

/-- `RiskFactors` of `models.py`: the six factor scores. -/
structure RiskFactors where
  base_severity : ℚ
  health_vulnerability : ℚ
  geographic_proximity : ℚ
  family_exposure : ℚ
  travel_risk : ℚ
  learned_preference : ℚ
deriving DecidableEq, Repr

/-- `RiskScore` of `models.py` (fields the engine writes). -/
structure RiskScore where
  user_id : String
  alert_id : String
  risk_level : RiskLevel
  risk_score : ℚ
  confidence : ℚ
  risk_factors : RiskFactors
  reasoning : List String
  recommended_actions : List ActionType
  needs_translation : Bool
  needs_image : Bool
  priority : ℤ
deriving DecidableEq, Repr

/-- A raised Python exception; `calculate_risk` can raise `TypeError`. -/
inductive PyError where
  | typeError (msg : String)
deriving DecidableEq, Repr

/-- Python truthiness of an `Optional[float]`: `None` and `0.0` are falsy. -/
def optRatTruthy : Option ℚ → Bool
  | none => false
  | some x => x != 0

/-- Python `str.lower()` (ASCII case folding, as in every string the engine
compares). -/
def pyLower (s : String) : String := (s.data.map Char.toLower).asString

/-- Python `str.strip()`: drop whitespace from both ends. -/
def pyStrip (s : String) : String :=
  (((s.data.dropWhile Char.isWhitespace).reverse.dropWhile
      Char.isWhitespace).reverse).asString

/-- Inner loop of Python `str.split(",")`. -/
def splitCommaAux : List Char → List Char → List (List Char)
  | [], acc => [acc.reverse]
  | c :: rest, acc =>
    if c = ',' then acc.reverse :: splitCommaAux rest []
    else splitCommaAux rest (c :: acc)

/-- Python `str.split(",")`: always a non-empty list of pieces
(`"".split(",") == [""]`). -/
def pySplitComma (s : String) : List String :=
  (splitCommaAux s.data []).map List.asString

/-- Python `dict.get`: first (unique) matching key of the association list. -/
def dictGet {α : Type} (d : List (String × α)) (k : String) : Option α :=
  (d.find? (fun p => p.1 == k)).map (fun p => p.2)

/-- Python `max` over a list of floats (the `[]` case is never reached by the
engine, which guards every aggregate with an emptiness check). -/
def pyMax : List ℚ → ℚ
  | [] => 0
  | x :: xs => xs.foldl max x

/-- Python `int(x)` on a float: truncation toward zero. -/
def pyTrunc (q : ℚ) : ℤ := if q < 0 then -⌊-q⌋ else ⌊q⌋

/-- Python `timedelta.days` for a difference of two timestamps in seconds:
floor division by 86400. -/
def daysBetween (later earlier : ℤ) : ℤ := Int.fdiv (later - earlier) 86400

/-- `RiskCalculator.SEVERITY_WEIGHTS`. The source reads it with
`dict.get(alert.severity, 0.5)`; the enum is total here, so every severity
has a weight and the `0.5` default is unreachable. -/
def SEVERITY_WEIGHTS : DiseaseSeverity → ℚ
  | .pandemic => 1
  | .epidemic => 8/10
  | .outbreak => 6/10
  | .cluster => 4/10
  | .sporadic => 2/10

/-- `RiskCalculator.RISK_TOLERANCE_MULTIPLIERS` read with default `1.0`. -/
def RISK_TOLERANCE_MULTIPLIERS (t : String) : ℚ :=
  if t == "low" then 3/2
  else if t == "moderate" then 1
  else if t == "high" then 7/10
  else 1

/-- `RiskCalculator._default_medical_knowledge`:
disease → condition → risk multiplier. -/
def default_medical_knowledge : List (String × List (String × ℚ)) :=
  [ ("dengue",
      [ ("diabetes", 5/2), ("heart disease", 2), ("hypertension", 9/5),
        ("pregnancy", 3), ("kidney disease", 23/10), ("asthma", 13/10) ]),
    ("covid-19",
      [ ("diabetes", 11/5), ("heart disease", 5/2), ("hypertension", 2),
        ("obesity", 19/10), ("copd", 14/5), ("cancer", 12/5),
        ("pregnancy", 17/10) ]),
    ("flu",
      [ ("asthma", 5/2), ("copd", 14/5), ("pregnancy", 2),
        ("heart disease", 9/5), ("diabetes", 8/5) ]),
    ("measles",
      [ ("immunocompromised", 3), ("pregnancy", 5/2),
        ("malnutrition", 11/5) ]),
    ("malaria",
      [ ("pregnancy", 3), ("hiv/aids", 5/2),
        ("sickle cell disease", 14/5) ]) ]

/-- The knowledge base of the module-level `risk_calculator = RiskCalculator()`
instance: constructed with no argument, hence the default table. -/
def medical_knowledge : List (String × List (String × ℚ)) :=
  default_medical_knowledge

/-- `self.medical_knowledge.get(disease, {}).get(cond, 1.0)`: the interaction
multiplier, defaulting to `1.0` at both levels. `cond` is already
lower-cased by the caller; `disease` is used verbatim. -/
def kb_multiplier (disease cond : String) : ℚ :=
  match dictGet medical_knowledge disease with
  | none => 1
  | some inner => (dictGet inner cond).getD 1

/-- `RiskCalculator._calculate_base_severity`. -/
def calculate_base_severity (alert : HealthAlert) : ℚ :=
  let base := SEVERITY_WEIGHTS alert.severity
  let base :=
    if optRatTruthy alert.mortality_rate then
      let mortality_factor := min ((alert.mortality_rate.getD 0) / 10) 1
      (base + mortality_factor) / 2
    else base
  min base 1

/-- Severity weight of a health condition,
`{"mild": 0.3, "moderate": 0.6, "severe": 1.0}.get(sev, 0.6)`. -/
def condition_severity_weight (sev : String) : ℚ :=
  if sev == "mild" then 3/10
  else if sev == "moderate" then 6/10
  else if sev == "severe" then 1
  else 6/10

/-- `RiskCalculator._calculate_health_vulnerability`. -/
def calculate_health_vulnerability (user : UserProfile) (alert : HealthAlert) : ℚ :=
  if user.health_conditions.isEmpty then 0
  else
    let vulnerability_scores := user.health_conditions.map (fun condition =>
      kb_multiplier alert.disease (pyLower condition.name) *
        condition_severity_weight condition.severity)
    min (pyMax vulnerability_scores) 1

/-- First comma-separated segment of an already-split location, trimmed
(`parts[0].strip()`; `str.split(",")` never yields an empty list). -/
def firstSeg (parts : List String) : String := pyStrip (parts.headD "")

/-- Last comma-separated segment, trimmed (`parts[-1].strip()`). -/
def lastSeg (parts : List String) : String := pyStrip (parts.getLastD "")

/-- `RiskCalculator._calculate_geographic_proximity`: a pure string
heuristic on the two `location` fields. -/
def calculate_geographic_proximity (user : UserProfile) (alert : HealthAlert) : ℚ :=
  if alert.location == "" then 3/10
  else
    let user_parts := pySplitComma (pyLower user.location)
    let alert_parts := pySplitComma (pyLower alert.location)
    if firstSeg user_parts == firstSeg alert_parts then 1
    else if user_parts.length > 1 && alert_parts.length > 1 &&
        (lastSeg user_parts == lastSeg alert_parts) then 6/10
    else 1/10

/-- `RiskCalculator._calculate_family_exposure`. -/
def calculate_family_exposure (user : UserProfile) (alert : HealthAlert) : ℚ :=
  if user.family_members.isEmpty || alert.location == "" then 0
  else
    let alert_parts := pySplitComma (pyLower alert.location)
    user.family_members.foldl (fun max_exposure fm =>
      let member_parts := pySplitComma (pyLower fm.location)
      if firstSeg member_parts == firstSeg alert_parts then
        max max_exposure (8/10)
      else if member_parts.length > 1 && alert_parts.length > 1 &&
          (lastSeg member_parts == lastSeg alert_parts) then
        max max_exposure (4/10)
      else max_exposure) 0

/-- `RiskCalculator._calculate_travel_risk`. `now` is the value the source
reads from `datetime.utcnow()` INSIDE this function: it is an ambient clock
reading, not a parameter of the Python function, and is surfaced here as an
explicit argument only so the dependence can be stated. -/
def calculate_travel_risk (user : UserProfile) (alert : HealthAlert) (now : ℤ) : ℚ :=
  if user.travel_plans.isEmpty || alert.location == "" then 0
  else
    let alert_parts := pySplitComma (pyLower alert.location)
    user.travel_plans.foldl (fun max_risk travel =>
      if travel.return_date < now then max_risk
      else
        let destination_parts := pySplitComma (pyLower travel.destination)
        if firstSeg destination_parts == firstSeg alert_parts then
          if daysBetween travel.departure_date now ≤ 14 then max max_risk 1
          else max max_risk (7/10)
        else if destination_parts.length > 1 && alert_parts.length > 1 &&
            (lastSeg destination_parts == lastSeg alert_parts) then
          max max_risk (1/2)
        else max_risk) 0

/-- `RiskCalculator._get_learned_preference`: the disease name is
lower-cased before the `learned_weights` lookup; default `0.5`. -/
def get_learned_preference (user : UserProfile) (alert : HealthAlert) : ℚ :=
  match dictGet user.learned_weights (pyLower alert.disease) with
  | some w => w
  | none => 1/2

/-- The factor bundle assembled by `calculate_risk` (lines 74-89). -/
def risk_factors_of (user : UserProfile) (alert : HealthAlert) (now : ℤ) : RiskFactors :=
  { base_severity := calculate_base_severity alert
    health_vulnerability := calculate_health_vulnerability user alert
    geographic_proximity := calculate_geographic_proximity user alert
    family_exposure := calculate_family_exposure user alert
    travel_risk := calculate_travel_risk user alert now
    learned_preference := get_learned_preference user alert }

/-- `RiskCalculator._calculate_composite_score`: fixed weights, clamped. -/
def calculate_composite_score (factors : RiskFactors) : ℚ :=
  min (factors.base_severity * (25/100) +
       factors.health_vulnerability * (25/100) +
       factors.geographic_proximity * (15/100) +
       factors.family_exposure * (15/100) +
       factors.travel_risk * (15/100) +
       factors.learned_preference * (5/100)) 1

/-- `RiskCalculator._classify_risk_level`. -/
def classify_risk_level (score : ℚ) : RiskLevel :=
  if score ≥ 70/100 then .critical
  else if score ≥ 50/100 then .high
  else if score ≥ 35/100 then .medium
  else if score ≥ 20/100 then .low
  else .minimal

/-- `RiskCalculator._determine_actions` (the `score` argument is unused by
the source body as well). -/
def determine_actions (risk_level : RiskLevel) (score : ℚ) : List ActionType :=
  match risk_level with
  | .critical => [.immediate_alert, .email_notification]
  | .high => [.email_notification]
  | .medium => [.log_only]
  | _ => [.log_only]

/-- `RiskCalculator._calculate_priority`:
`max(1, min(10, int((1.0 - score) * 10) + 1))`. -/
def calculate_priority (score : ℚ) : ℤ :=
  max 1 (min 10 (pyTrunc ((1 - score) * 10) + 1))

/-- `RiskCalculator._calculate_confidence`: mean of five completeness
indicators; note the Python truthiness tests on the optional floats. -/
def calculate_confidence (user : UserProfile) (alert : HealthAlert) : ℚ :=
  let f1 : ℚ := if user.health_conditions.isEmpty then 1/2 else 1
  let f2 : ℚ := if user.family_members.isEmpty then 8/10 else 1
  let f3 : ℚ := if user.travel_plans.isEmpty then 9/10 else 1
  let f4 : ℚ := if optRatTruthy alert.latitude && optRatTruthy alert.longitude
                then 1 else 7/10
  let f5 : ℚ := if optRatTruthy alert.mortality_rate then 1 else 8/10
  (f1 + f2 + f3 + f4 + f5) / 5

/-- Body of the source's `_generate_reasoning(user, alert, factors)`. The
def has no `self` parameter, so this is the three-argument function the
source text declares. -/
def generate_reasoning (user : UserProfile) (alert : HealthAlert)
    (factors : RiskFactors) : List String :=
  let sv := alert.severity.value
  let r1 : List String :=
    if factors.base_severity ≥ 7/10 then
      ["High severity " ++ sv ++ " outbreak reported"]
    else if factors.base_severity ≥ 4/10 then
      ["Moderate severity " ++ sv ++ " detected"]
    else []
  let r2 : List String :=
    if factors.health_vulnerability ≥ 7/10 then
      let conditions := user.health_conditions.map (fun c => c.name)
      ["Your health conditions (" ++ String.intercalate ", " conditions ++
        ") increase vulnerability"]
    else if factors.health_vulnerability ≥ 4/10 then
      ["Some of your health conditions may be relevant"]
    else []
  let r3 : List String :=
    if factors.geographic_proximity ≥ 9/10 then
      ["Outbreak is in your current location (" ++ user.location ++ ")"]
    else if factors.geographic_proximity ≥ 5/10 then
      ["Outbreak is in your country/region"]
    else []
  let r4 : List String :=
    if factors.family_exposure ≥ 7/10 then
      ["Family members are in the affected area"]
    else if factors.family_exposure ≥ 4/10 then
      ["Family members may be in nearby regions"]
    else []
  let r5 : List String :=
    if factors.travel_risk ≥ 7/10 then
      ["You have upcoming travel to the affected area"]
    else if factors.travel_risk ≥ 4/10 then
      ["Your travel plans may be affected"]
    else []
  let reasoning := r1 ++ r2 ++ r3 ++ r4 ++ r5
  if reasoning.isEmpty then ["Low overall risk based on your profile"] else reasoning

/-- `RiskCalculator.calculate_risk`. Faithful to the source's runtime
behaviour: after computing the factors, composite score, final score and
risk level, line 104 evaluates `self._generate_reasoning(user, alert,
risk_factors)`. `_generate_reasoning` is declared with three parameters
and no `self`, so this bound-method call passes four arguments and raises
`TypeError` on every invocation; the remaining steps (actions, flags,
priority, confidence, result construction) are never reached. `now` is
the ambient `datetime.utcnow()` value read inside
`_calculate_travel_risk`, surfaced as an explicit argument. -/
def calculate_risk (user : UserProfile) (alert : HealthAlert) (now : ℤ) :
    Except PyError RiskScore :=
  let risk_factors := risk_factors_of user alert now
  let composite_score := calculate_composite_score risk_factors
  let tolerance_multiplier :=
    RISK_TOLERANCE_MULTIPLIERS user.preferences.risk_tolerance
  let final_score := min (composite_score * tolerance_multiplier) 1
  let _risk_level := classify_risk_level final_score
  Except.error (PyError.typeError
    ("RiskCalculator._generate_reasoning() takes 3 positional arguments " ++
     "but 4 were given"))

end VitalSignal

namespace VitalSignal

/-- Rank of a risk level in the order MINIMAL < LOW < MEDIUM < HIGH < CRITICAL. -/
def levelRank : RiskLevel → ℕ
  | .minimal => 0
  | .low => 1
  | .medium => 2
  | .high => 3
  | .critical => 4

/-- Scenario A person: only condition diabetes at severity moderate, same
city as the alert, no family, no travel, no learned weights, moderate
risk tolerance. -/
def scenarioA_user : UserProfile :=
  { user_id := "u1", name := "Ana", age := 45, location := "Recife, Brazil",
    health_conditions := [{ name := "diabetes", severity := "moderate" }] }

/-- Scenario A alert: dengue outbreak in the person's city with
mortality rate 0.6. -/
def scenarioA_alert : HealthAlert :=
  { alert_id := "a1", disease := "dengue", location := "Recife, Brazil",
    severity := .outbreak, mortality_rate := some (6/10) }

/-- Claim C1: the claim says `calculate_risk` returns a `RiskScore` and never
raises for well-formed inputs. The code contradicts it: `_generate_reasoning`
is declared without a `self` parameter, so the bound-method call at line 104
passes four arguments to a three-parameter function and raises `TypeError`
on every invocation, whatever the user, alert, or ambient clock value. -/
theorem calculate_risk_always_raises (user : UserProfile) (alert : HealthAlert)
    (now : ℤ) :
    calculate_risk user alert now =
      Except.error (PyError.typeError
        ("RiskCalculator._generate_reasoning() takes 3 positional arguments " ++
         "but 4 were given")) := rfl

/-- Claim C3: for a final score in `[0,1]` the classifier returns CRITICAL
iff the score is at least 0.70, else HIGH iff at least 0.50, else MEDIUM iff
at least 0.35, else LOW iff at least 0.20, else MINIMAL, with inclusive lower
bounds, and the classification is a monotone step function of the score. -/
theorem classify_risk_level_spec (s : ℚ) (h0 : 0 ≤ s) (h1 : s ≤ 1) :
    (classify_risk_level s = .critical ↔ 70/100 ≤ s) ∧
    (classify_risk_level s = .high ↔ 50/100 ≤ s ∧ s < 70/100) ∧
    (classify_risk_level s = .medium ↔ 35/100 ≤ s ∧ s < 50/100) ∧
    (classify_risk_level s = .low ↔ 20/100 ≤ s ∧ s < 35/100) ∧
    (classify_risk_level s = .minimal ↔ s < 20/100) ∧
    ∀ t : ℚ, s ≤ t →
      levelRank (classify_risk_level s) ≤ levelRank (classify_risk_level t) := by
  refine ⟨?_, ?_, ?_, ?_, ?_, ?_⟩
  · unfold classify_risk_level
    split_ifs <;> simp <;>
      first
        | linarith
        | (intro h'; linarith)
        | (exact ⟨by linarith, by linarith⟩)
  · unfold classify_risk_level
    split_ifs <;> simp <;>
      first
        | linarith
        | (intro h'; linarith)
        | (exact ⟨by linarith, by linarith⟩)
  · unfold classify_risk_level
    split_ifs <;> simp <;>
      first
        | linarith
        | (intro h'; linarith)
        | (exact ⟨by linarith, by linarith⟩)
  · unfold classify_risk_level
    split_ifs <;> simp <;>
      first
        | linarith
        | (intro h'; linarith)
        | (exact ⟨by linarith, by linarith⟩)
  · unfold classify_risk_level
    split_ifs <;> simp <;>
      first
        | linarith
        | (intro h'; linarith)
        | (exact ⟨by linarith, by linarith⟩)
  · intro t hst
    unfold classify_risk_level
    split_ifs <;> simp [levelRank] <;>
      first
        | omega
        | linarith
        | (exfalso; linarith)

/-- Witness for C3: the boundary score 0.50 satisfies the hypotheses and is
classified HIGH, not MEDIUM. -/
theorem classify_risk_level_spec_witness :
    (0 : ℚ) ≤ 50/100 ∧ (50/100 : ℚ) ≤ 1 ∧
    classify_risk_level (50/100) = .high :=
  ⟨by norm_num, by norm_num,
    (classify_risk_level_spec (50/100) (by norm_num) (by norm_num)).2.1.mpr
      ⟨by norm_num, by norm_num⟩⟩

/-- Claim C4: on Scenario A (diabetic at moderate severity in the city of a
dengue outbreak alert with mortality rate 0.6, no family, no travel, no
learned weight, moderate tolerance) the engine computes
health_vulnerability 1.0, geographic_proximity 1.0, family and travel 0.0,
base_severity 0.33, learned_preference 0.5, composite and final score
0.5075, risk level HIGH, and recommended actions `[EMAIL_NOTIFICATION]`. -/
theorem scenarioA_risk_values :
    calculate_health_vulnerability scenarioA_user scenarioA_alert = 1 ∧
    calculate_geographic_proximity scenarioA_user scenarioA_alert = 1 ∧
    calculate_family_exposure scenarioA_user scenarioA_alert = 0 ∧
    (∀ now : ℤ, calculate_travel_risk scenarioA_user scenarioA_alert now = 0) ∧
    calculate_base_severity scenarioA_alert = 33/100 ∧
    get_learned_preference scenarioA_user scenarioA_alert = 1/2 ∧
    (∀ now : ℤ,
      calculate_composite_score (risk_factors_of scenarioA_user scenarioA_alert now) =
        5075/10000 ∧
      min (calculate_composite_score (risk_factors_of scenarioA_user scenarioA_alert now) *
        RISK_TOLERANCE_MULTIPLIERS scenarioA_user.preferences.risk_tolerance) 1 =
        5075/10000 ∧
      classify_risk_level (5075/10000) = .high) ∧
    determine_actions .high (5075/10000) = [.email_notification] := by
  have hvuln : calculate_health_vulnerability scenarioA_user scenarioA_alert = 1 := by
    have h : calculate_health_vulnerability scenarioA_user scenarioA_alert =
        min ((5/2 : ℚ) * (6/10)) 1 := rfl
    rw [h, min_def]
    norm_num
  have hgeo : calculate_geographic_proximity scenarioA_user scenarioA_alert = 1 := rfl
  have hfam : calculate_family_exposure scenarioA_user scenarioA_alert = 0 := rfl
  have htrav : ∀ now : ℤ,
      calculate_travel_risk scenarioA_user scenarioA_alert now = 0 := fun _ => rfl
  have hbase : calculate_base_severity scenarioA_alert = 33/100 := by
    have ht : optRatTruthy scenarioA_alert.mortality_rate = true := by
      norm_num [optRatTruthy, scenarioA_alert]
    unfold calculate_base_severity
    rw [ht]
    norm_num [scenarioA_alert, SEVERITY_WEIGHTS, min_def]
  have hlearn : get_learned_preference scenarioA_user scenarioA_alert = 1/2 := rfl
  have hcomp : ∀ now : ℤ,
      calculate_composite_score (risk_factors_of scenarioA_user scenarioA_alert now) =
        5075/10000 := by
    intro now
    unfold calculate_composite_score risk_factors_of
    rw [hbase, hvuln, hgeo, hfam, htrav now, hlearn, min_def]
    norm_num
  refine ⟨hvuln, hgeo, hfam, htrav, hbase, hlearn, fun now => ⟨hcomp now, ?_, ?_⟩, rfl⟩
  · rw [hcomp now,
      show RISK_TOLERANCE_MULTIPLIERS scenarioA_user.preferences.risk_tolerance = 1
        from rfl, min_def]
    norm_num
  · unfold classify_risk_level
    norm_num

/-- A person identical to Scenario A's except for one upcoming trip to the
alert city, used to exhibit the ambient-clock dependence of travel risk. -/
def travelUser : UserProfile :=
  { user_id := "u2", name := "Bo", age := 30, location := "Lima, Peru",
    travel_plans := [{ destination := "Recife, Brazil",
                       departure_date := 86400 * 10,
                       return_date := 86400 * 20 }] }

/-- Counterexample to claim C2: the "now" used for travel-plan evaluation is
`datetime.utcnow()` read inside `_calculate_travel_risk`, not a parameter of
`calculate_risk` (whose Python signature is `(self, user, alert)`). Surfacing
that hidden read as an explicit clock value shows the factor bundle genuinely
depends on it: for the same person and alert, a clock reading of 0 yields
travel risk 1.0 while a reading 30 days later yields 0.0. -/
theorem travel_risk_depends_on_ambient_clock :
    calculate_travel_risk travelUser scenarioA_alert 0 = 1 ∧
    calculate_travel_risk travelUser scenarioA_alert (86400 * 30) = 0 ∧
    risk_factors_of travelUser scenarioA_alert 0 ≠
      risk_factors_of travelUser scenarioA_alert (86400 * 30) := by
  have h1 : calculate_travel_risk travelUser scenarioA_alert 0 = max 0 1 := rfl
  have h1' : calculate_travel_risk travelUser scenarioA_alert 0 = 1 := by
    rw [h1, max_def]
    norm_num
  have h2 : calculate_travel_risk travelUser scenarioA_alert (86400 * 30) = 0 := rfl
  refine ⟨h1', h2, ?_⟩
  intro hegal
  have hproj := congrArg RiskFactors.travel_risk hegal
  have hp0 : (risk_factors_of travelUser scenarioA_alert 0).travel_risk =
      calculate_travel_risk travelUser scenarioA_alert 0 := rfl
  have hp30 : (risk_factors_of travelUser scenarioA_alert (86400 * 30)).travel_risk =
      calculate_travel_risk travelUser scenarioA_alert (86400 * 30) := rfl
  rw [hp0, hp30, h1', h2] at hproj
  norm_num at hproj

/-- Claim C2 amended: `calculate_risk` is deterministic only once the ambient
clock value read by `_calculate_travel_risk` is fixed; in particular for a
person with no travel plans the factor bundle (and the result of
`calculate_risk`) is independent of the clock reading. -/
theorem risk_deterministic_given_clock (user : UserProfile) (alert : HealthAlert)
    (n1 n2 : ℤ) (h : user.travel_plans = []) :
    risk_factors_of user alert n1 = risk_factors_of user alert n2 ∧
    calculate_risk user alert n1 = calculate_risk user alert n2 := by
  have ht : ∀ n : ℤ, calculate_travel_risk user alert n = 0 := by
    intro n
    unfold calculate_travel_risk
    rw [h]
    simp
  constructor
  · unfold risk_factors_of
    rw [ht n1, ht n2]
  · rfl

/-- Witness for the amended C2: Scenario A's person has no travel plans, and
the factor bundle is the same at clock readings 0 and one day later. -/
theorem risk_deterministic_given_clock_witness :
    scenarioA_user.travel_plans = [] ∧
    risk_factors_of scenarioA_user scenarioA_alert 0 =
      risk_factors_of scenarioA_user scenarioA_alert 86400 :=
  ⟨rfl, (risk_deterministic_given_clock scenarioA_user scenarioA_alert 0 86400 rfl).1⟩


/-- Well-formedness of the learned-weights dict per the data model:
every stored weight lies in `[0,1]`. -/
def weightsWellFormed : List (String × ℚ) → Prop
  | [] => True
  | p :: rest => (0 ≤ p.2 ∧ p.2 ≤ 1) ∧ weightsWellFormed rest

lemma weightsWellFormed_mem {l : List (String × ℚ)} (h : weightsWellFormed l) :
    ∀ p ∈ l, 0 ≤ p.2 ∧ p.2 ≤ 1 := by
  induction l with
  | nil => intro p hp; cases hp
  | cons q rest ih =>
    obtain ⟨hq, hrest⟩ := h
    intro p hp
    cases hp with
    | head => exact hq
    | tail _ hmem => exact ih hrest p hmem

lemma dictGet_mem {α : Type} {d : List (String × α)} {k : String} {v : α}
    (h : dictGet d k = some v) : ∃ p ∈ d, p.2 = v := by
  unfold dictGet at h
  cases hf : List.find? (fun p => p.1 == k) d with
  | none => rw [hf] at h; simp at h
  | some p =>
    rw [hf] at h
    simp at h
    exact ⟨p, List.mem_of_find?_eq_some hf, h⟩

lemma medical_knowledge_multiplier_nonneg :
    ∀ p ∈ medical_knowledge, ∀ q ∈ p.2, (0:ℚ) ≤ q.2 := by
  intro p hp q hq
  fin_cases hp <;> fin_cases hq <;> norm_num

lemma kb_multiplier_nonneg (disease cond : String) : 0 ≤ kb_multiplier disease cond := by
  unfold kb_multiplier
  cases hd : dictGet medical_knowledge disease with
  | none => norm_num
  | some inner =>
    cases hc : dictGet inner cond with
    | none =>
      simp only [hc, Option.getD_none]
      norm_num
    | some v =>
      simp only [hc, Option.getD_some]
      obtain ⟨p, hpmem, hpv⟩ := dictGet_mem hd
      obtain ⟨q, hqmem, hqv⟩ := dictGet_mem hc
      rw [← hqv]
      rw [← hpv] at hqmem
      exact medical_knowledge_multiplier_nonneg p hpmem q hqmem

lemma condition_severity_weight_bounds (sev : String) :
    0 ≤ condition_severity_weight sev ∧ condition_severity_weight sev ≤ 1 := by
  unfold condition_severity_weight
  split_ifs <;> norm_num

lemma SEVERITY_WEIGHTS_bounds (s : DiseaseSeverity) :
    2/10 ≤ SEVERITY_WEIGHTS s ∧ SEVERITY_WEIGHTS s ≤ 1 := by
  cases s <;> norm_num [SEVERITY_WEIGHTS]

lemma le_foldl_max (l : List ℚ) (a : ℚ) : a ≤ l.foldl max a := by
  induction l generalizing a with
  | nil => simp
  | cons x xs ih =>
    rw [List.foldl_cons]
    exact le_trans (le_max_left a x) (ih (max a x))

lemma pyMax_nonneg {l : List ℚ} (h : ∀ x ∈ l, 0 ≤ x) : 0 ≤ pyMax l := by
  cases l with
  | nil => simp [pyMax]
  | cons x xs =>
    have hx := h x (List.mem_cons_self x xs)
    show (0:ℚ) ≤ xs.foldl max x
    exact le_trans hx (le_foldl_max xs x)

lemma foldl_preserve_bounds {β : Type} (step : ℚ → β → ℚ)
    (hstep : ∀ acc x, 0 ≤ acc → acc ≤ 1 → 0 ≤ step acc x ∧ step acc x ≤ 1)
    (l : List β) (a : ℚ) (h0 : 0 ≤ a) (h1 : a ≤ 1) :
    0 ≤ l.foldl step a ∧ l.foldl step a ≤ 1 := by
  induction l generalizing a with
  | nil => simpa using ⟨h0, h1⟩
  | cons x xs ih =>
    rw [List.foldl_cons]
    obtain ⟨s0, s1⟩ := hstep a x h0 h1
    exact ih (step a x) s0 s1

lemma calculate_base_severity_bounds (alert : HealthAlert)
    (hm : 0 ≤ alert.mortality_rate.getD 0) :
    0 ≤ calculate_base_severity alert ∧ calculate_base_severity alert ≤ 1 := by
  obtain ⟨hl, hu⟩ := SEVERITY_WEIGHTS_bounds alert.severity
  simp only [calculate_base_severity]
  split_ifs with h
  · refine ⟨le_min ?_ (by norm_num), min_le_right _ _⟩
    have h0 : (0:ℚ) ≤ min (alert.mortality_rate.getD 0 / 10) 1 :=
      le_min (by linarith) (by norm_num)
    linarith
  · exact ⟨le_min (by linarith) (by norm_num), min_le_right _ _⟩

lemma calculate_health_vulnerability_bounds (user : UserProfile) (alert : HealthAlert) :
    0 ≤ calculate_health_vulnerability user alert ∧
      calculate_health_vulnerability user alert ≤ 1 := by
  unfold calculate_health_vulnerability
  split_ifs with h
  · norm_num
  · refine ⟨le_min ?_ (by norm_num), min_le_right _ _⟩
    apply pyMax_nonneg
    intro x hx
    simp only [List.mem_map] at hx
    obtain ⟨c, hc, rfl⟩ := hx
    exact mul_nonneg (kb_multiplier_nonneg _ _) (condition_severity_weight_bounds _).1

lemma calculate_geographic_proximity_bounds (user : UserProfile) (alert : HealthAlert) :
    0 ≤ calculate_geographic_proximity user alert ∧
      calculate_geographic_proximity user alert ≤ 1 := by
  simp only [calculate_geographic_proximity]
  split_ifs <;> norm_num

lemma max_step_bounds {acc c : ℚ} (h0 : 0 ≤ acc) (h1 : acc ≤ 1) (hc : c ≤ 1) :
    0 ≤ max acc c ∧ max acc c ≤ 1 :=
  ⟨le_trans h0 (le_max_left _ _), max_le h1 hc⟩

set_option maxHeartbeats 1000000 in
lemma calculate_family_exposure_bounds (user : UserProfile) (alert : HealthAlert) :
    0 ≤ calculate_family_exposure user alert ∧
      calculate_family_exposure user alert ≤ 1 := by
  simp only [calculate_family_exposure]
  split_ifs with h
  · norm_num
  · apply foldl_preserve_bounds
    · intro acc x h0 h1
      dsimp only
      split_ifs <;>
        first
          | exact max_step_bounds h0 h1 (by norm_num)
          | exact ⟨h0, h1⟩
    · norm_num
    · norm_num

set_option maxHeartbeats 1000000 in
lemma calculate_travel_risk_bounds (user : UserProfile) (alert : HealthAlert) (now : ℤ) :
    0 ≤ calculate_travel_risk user alert now ∧
      calculate_travel_risk user alert now ≤ 1 := by
  simp only [calculate_travel_risk]
  split_ifs with h
  · norm_num
  · apply foldl_preserve_bounds
    · intro acc x h0 h1
      by_cases hr : x.return_date < now
      · simp only [if_pos hr]
        exact ⟨h0, h1⟩
      · simp only [if_neg hr]
        split_ifs <;>
          first
            | exact max_step_bounds h0 h1 (by norm_num)
            | exact ⟨h0, h1⟩
    · norm_num
    · norm_num

lemma get_learned_preference_bounds (user : UserProfile) (alert : HealthAlert)
    (hw : weightsWellFormed user.learned_weights) :
    0 ≤ get_learned_preference user alert ∧ get_learned_preference user alert ≤ 1 := by
  unfold get_learned_preference
  cases hd : dictGet user.learned_weights (pyLower alert.disease) with
  | none => norm_num
  | some w =>
    obtain ⟨p, hmem, hv⟩ := dictGet_mem hd
    rw [← hv]
    exact weightsWellFormed_mem hw p hmem

lemma RISK_TOLERANCE_MULTIPLIERS_nonneg (t : String) :
    0 ≤ RISK_TOLERANCE_MULTIPLIERS t := by
  unfold RISK_TOLERANCE_MULTIPLIERS
  split_ifs <;> norm_num

lemma calculate_composite_score_bounds (f : RiskFactors)
    (h1 : 0 ≤ f.base_severity) (h3 : 0 ≤ f.health_vulnerability)
    (h5 : 0 ≤ f.geographic_proximity) (h7 : 0 ≤ f.family_exposure)
    (h9 : 0 ≤ f.travel_risk) (h11 : 0 ≤ f.learned_preference) :
    0 ≤ calculate_composite_score f ∧ calculate_composite_score f ≤ 1 := by
  unfold calculate_composite_score
  refine ⟨le_min ?_ (by norm_num), min_le_right _ _⟩
  have t1 : (0:ℚ) ≤ f.base_severity * (25/100) := mul_nonneg h1 (by norm_num)
  have t2 : (0:ℚ) ≤ f.health_vulnerability * (25/100) := mul_nonneg h3 (by norm_num)
  have t3 : (0:ℚ) ≤ f.geographic_proximity * (15/100) := mul_nonneg h5 (by norm_num)
  have t4 : (0:ℚ) ≤ f.family_exposure * (15/100) := mul_nonneg h7 (by norm_num)
  have t5 : (0:ℚ) ≤ f.travel_risk * (15/100) := mul_nonneg h9 (by norm_num)
  have t6 : (0:ℚ) ≤ f.learned_preference * (5/100) := mul_nonneg h11 (by norm_num)
  linarith

/-- Claim C5: for every well-formed input (non-negative mortality rate,
learned weights in `[0,1]`), all six risk factors, the composite score, and
the final tolerance-adjusted score lie in `[0,1]`, even where a
knowledge-base multiplier or the low-tolerance multiplier 1.5 would push an
intermediate product above 1. -/
theorem all_scores_in_unit_interval (user : UserProfile) (alert : HealthAlert)
    (now : ℤ) (hm : 0 ≤ alert.mortality_rate.getD 0)
    (hw : weightsWellFormed user.learned_weights) :
    (0 ≤ calculate_base_severity alert ∧ calculate_base_severity alert ≤ 1) ∧
    (0 ≤ calculate_health_vulnerability user alert ∧
      calculate_health_vulnerability user alert ≤ 1) ∧
    (0 ≤ calculate_geographic_proximity user alert ∧
      calculate_geographic_proximity user alert ≤ 1) ∧
    (0 ≤ calculate_family_exposure user alert ∧
      calculate_family_exposure user alert ≤ 1) ∧
    (0 ≤ calculate_travel_risk user alert now ∧
      calculate_travel_risk user alert now ≤ 1) ∧
    (0 ≤ get_learned_preference user alert ∧
      get_learned_preference user alert ≤ 1) ∧
    (0 ≤ calculate_composite_score (risk_factors_of user alert now) ∧
      calculate_composite_score (risk_factors_of user alert now) ≤ 1) ∧
    (0 ≤ min (calculate_composite_score (risk_factors_of user alert now) *
          RISK_TOLERANCE_MULTIPLIERS user.preferences.risk_tolerance) 1 ∧
      min (calculate_composite_score (risk_factors_of user alert now) *
          RISK_TOLERANCE_MULTIPLIERS user.preferences.risk_tolerance) 1 ≤ 1) := by
  have hb := calculate_base_severity_bounds alert hm
  have hv := calculate_health_vulnerability_bounds user alert
  have hg := calculate_geographic_proximity_bounds user alert
  have hf := calculate_family_exposure_bounds user alert
  have ht := calculate_travel_risk_bounds user alert now
  have hl := get_learned_preference_bounds user alert hw
  have hc := calculate_composite_score_bounds (risk_factors_of user alert now)
    hb.1 hv.1 hg.1 hf.1 ht.1 hl.1
  refine ⟨hb, hv, hg, hf, ht, hl, hc, ?_, min_le_right _ _⟩
  exact le_min
    (mul_nonneg hc.1 (RISK_TOLERANCE_MULTIPLIERS_nonneg _)) (by norm_num)

/-- Witness for C5: Scenario A satisfies the well-formedness hypotheses, and
its composite score and final score lie in `[0,1]`. -/
theorem all_scores_in_unit_interval_witness :
    0 ≤ scenarioA_alert.mortality_rate.getD 0 ∧
    weightsWellFormed scenarioA_user.learned_weights ∧
    (0 ≤ calculate_composite_score (risk_factors_of scenarioA_user scenarioA_alert 0) ∧
      calculate_composite_score (risk_factors_of scenarioA_user scenarioA_alert 0) ≤ 1) := by
  have hm : 0 ≤ scenarioA_alert.mortality_rate.getD 0 := by
    norm_num [scenarioA_alert]
  have hw : weightsWellFormed scenarioA_user.learned_weights := trivial
  exact ⟨hm, hw,
    (all_scores_in_unit_interval scenarioA_user scenarioA_alert 0 hm hw).2.2.2.2.2.2.1⟩


/-- Geographic proximity as the spec words it (section 4.4): split both
locations on comma into trimmed, lower-cased segments; matching first
segments give 1.0; else matching last segments, when both locations have
more than one segment, give 0.6; else 0.1; an alert with no location text
at all gives 0.3 before any comparison. -/
def spec_geographic_proximity (user_location alert_location : String) : ℚ :=
  if alert_location = "" then 3/10
  else
    let usegs := (pySplitComma (pyLower user_location)).map pyStrip
    let asegs := (pySplitComma (pyLower alert_location)).map pyStrip
    if usegs.headD "" = asegs.headD "" then 1
    else if usegs.length > 1 ∧ asegs.length > 1 ∧ usegs.getLastD "" = asegs.getLastD "" then
      6/10
    else 1/10

lemma headD_map_pyStrip (l : List String) :
    (l.map pyStrip).headD "" = pyStrip (l.headD "") := by
  cases l with
  | nil => rfl
  | cons x xs => rfl

lemma getLastD_map_pyStrip (l : List String) (d : String) :
    (l.map pyStrip).getLastD (pyStrip d) = pyStrip (l.getLastD d) := by
  induction l generalizing d with
  | nil => rfl
  | cons x xs ih =>
    rw [List.map_cons, List.getLastD_cons, List.getLastD_cons]
    exact ih x

lemma getLastD_map_pyStrip_empty (l : List String) :
    (l.map pyStrip).getLastD "" = pyStrip (l.getLastD "") :=
  getLastD_map_pyStrip l ""

/-- Claim C6: geographic proximity is computed purely from the location
strings — changing any latitude or longitude never changes it — and equals
the spec's segment rule: 0.3 when the alert has no location text, else 1.0
when the first trimmed lower-cased comma segments match, else 0.6 when both
locations have more than one segment and their last segments match, else
0.1. -/
theorem geographic_proximity_spec (user : UserProfile) (alert : HealthAlert)
    (ulat ulon alat alon : Option ℚ) :
    calculate_geographic_proximity user alert =
      spec_geographic_proximity user.location alert.location ∧
    calculate_geographic_proximity
        { user with latitude := ulat, longitude := ulon }
        { alert with latitude := alat, longitude := alon } =
      calculate_geographic_proximity user alert := by
  constructor
  · simp only [calculate_geographic_proximity, spec_geographic_proximity,
      firstSeg, lastSeg, headD_map_pyStrip, getLastD_map_pyStrip_empty,
      List.length_map, beq_iff_eq, Bool.and_eq_true, decide_eq_true_eq,
      gt_iff_lt, and_assoc]
  · rfl

/-- Contribution of one health condition per spec section 4.3: knowledge-base
multiplier for the alert's disease and the lower-cased condition name
(default 1.0) times the condition severity weight. -/
def spec_contribution (alert : HealthAlert) (c : HealthCondition) : ℚ :=
  kb_multiplier alert.disease (pyLower c.name) * condition_severity_weight c.severity

/-- Health vulnerability as the spec words it: the maximum contribution
across all conditions (0 for a person with none), clamped to 1. -/
def spec_health_vulnerability (user : UserProfile) (alert : HealthAlert) : ℚ :=
  min ((user.health_conditions.map (spec_contribution alert)).foldr max 0) 1

lemma foldl_max_eq_foldr (l : List ℚ) (a : ℚ) (h0 : 0 ≤ a)
    (hl : ∀ x ∈ l, 0 ≤ x) : l.foldl max a = max a (l.foldr max 0) := by
  induction l generalizing a with
  | nil => simp [max_eq_left h0]
  | cons x xs ih =>
    rw [List.foldl_cons, List.foldr_cons,
      ih (max a x) (le_trans h0 (le_max_left _ _))
        (fun y hy => hl y (List.mem_cons_of_mem _ hy)),
      max_assoc]

lemma pyMax_eq_foldr (l : List ℚ) (hl : ∀ x ∈ l, 0 ≤ x) (hne : l ≠ []) :
    pyMax l = l.foldr max 0 := by
  cases l with
  | nil => cases hne rfl
  | cons x xs =>
    show xs.foldl max x = (x :: xs).foldr max 0
    rw [List.foldr_cons, foldl_max_eq_foldr xs x (hl x (List.mem_cons_self x xs))
      (fun y hy => hl y (List.mem_cons_of_mem _ hy))]

/-- Claim C7: health vulnerability equals the maximum, over the person's
health conditions, of the knowledge-base multiplier (for the alert's disease
and the lower-cased condition name, default 1.0) times the severity weight
(mild 0.3, moderate 0.6, severe 1.0, default 0.6), clamped to 1; and a
person with zero health conditions gets exactly 0. -/
theorem health_vulnerability_spec_eq (user : UserProfile) (alert : HealthAlert) :
    calculate_health_vulnerability user alert = spec_health_vulnerability user alert ∧
    calculate_health_vulnerability { user with health_conditions := [] } alert = 0 := by
  constructor
  · unfold calculate_health_vulnerability spec_health_vulnerability
    cases hu : user.health_conditions with
    | nil => norm_num
    | cons c cs =>
      rw [if_neg (by simp)]
      dsimp only
      rw [show List.map (spec_contribution alert) (c :: cs) =
          List.map (fun condition =>
            kb_multiplier alert.disease (pyLower condition.name) *
              condition_severity_weight condition.severity) (c :: cs) from rfl]
      refine congrArg (fun z => min z 1) ?_
      apply pyMax_eq_foldr
      · intro x hx
        simp only [List.mem_map] at hx
        obtain ⟨c', hc', rfl⟩ := hx
        exact mul_nonneg (kb_multiplier_nonneg _ _) (condition_severity_weight_bounds _).1
      · simp
  · rfl

/-- Claim C8: for scores in `[0,1]` the priority equals
`clamp(floor((1-s)*10)+1, 1, 10)`; in particular priority(1)=1 and
priority(0)=10, and priority is non-increasing in the score. -/
theorem priority_spec (s : ℚ) (h0 : 0 ≤ s) (h1 : s ≤ 1) :
    calculate_priority s = max 1 (min 10 (⌊(1 - s) * 10⌋ + 1)) ∧
    calculate_priority 1 = 1 ∧ calculate_priority 0 = 10 ∧
    ∀ t : ℚ, s ≤ t → t ≤ 1 → calculate_priority t ≤ calculate_priority s := by
  have key : ∀ u : ℚ, u ≤ 1 →
      calculate_priority u = max 1 (min 10 (⌊(1 - u) * 10⌋ + 1)) := by
    intro u hu
    unfold calculate_priority pyTrunc
    rw [if_neg (not_lt.mpr (mul_nonneg (by linarith) (by norm_num)))]
  refine ⟨key s h1, ?_, ?_, ?_⟩
  · rw [key 1 le_rfl]
    norm_num
  · rw [key 0 (by norm_num)]
    norm_num
  · intro t hst ht1
    rw [key t ht1, key s h1]
    apply max_le_max le_rfl
    apply min_le_min le_rfl
    have hle : (1 - t) * 10 ≤ (1 - s) * 10 := by linarith
    exact add_le_add_right (Int.floor_mono hle) 1

/-- Witness for C8: the hypotheses hold at score 1, and the endpoint values
priority(1)=1, priority(0)=10 follow by applying the theorem there. -/
theorem priority_spec_witness :
    (0 : ℚ) ≤ 1 ∧ (1 : ℚ) ≤ 1 ∧ calculate_priority 1 = 1 ∧ calculate_priority 0 = 10 := by
  have h := priority_spec 1 (by norm_num) le_rfl
  exact ⟨by norm_num, le_rfl, h.2.1, h.2.2.1⟩

/-- Claim C9: a mortality rate equal to 0.0 is treated as absent — base
severity skips the mortality adjustment (the factor is just the clamped
severity weight) and confidence is the same as with no mortality rate at
all (the 0.8 default); likewise a latitude or longitude equal to 0.0 counts
as a missing coordinate for confidence (the 0.7 default). -/
theorem zero_values_treated_as_missing (user : UserProfile) (alert : HealthAlert) :
    (alert.mortality_rate = some 0 →
      calculate_base_severity alert =
        calculate_base_severity { alert with mortality_rate := none } ∧
      calculate_base_severity alert = min (SEVERITY_WEIGHTS alert.severity) 1 ∧
      calculate_confidence user alert =
        calculate_confidence user { alert with mortality_rate := none }) ∧
    (alert.latitude = some 0 →
      calculate_confidence user alert =
        calculate_confidence user { alert with latitude := none }) ∧
    (alert.longitude = some 0 →
      calculate_confidence user alert =
        calculate_confidence user { alert with longitude := none }) := by
  refine ⟨?_, ?_, ?_⟩
  · intro h
    refine ⟨?_, ?_, ?_⟩
    · simp [calculate_base_severity, optRatTruthy, h]
    · simp [calculate_base_severity, optRatTruthy, h]
    · simp [calculate_confidence, optRatTruthy, h]
  · intro h
    simp [calculate_confidence, optRatTruthy, h]
  · intro h
    simp [calculate_confidence, optRatTruthy, h]

/-- Alert whose optional numeric fields are all the Python-falsy 0.0. -/
def zeroAlert : HealthAlert :=
  { alert_id := "a3", disease := "dengue", location := "Recife, Brazil",
    severity := .outbreak, mortality_rate := some 0, latitude := some 0,
    longitude := some 0 }

/-- Witness for C9: a concrete alert with mortality rate 0.0 and coordinates
0.0 satisfies the hypotheses, and its base severity and confidence behave as
if those fields were missing. -/
theorem zero_values_treated_as_missing_witness :
    zeroAlert.mortality_rate = some 0 ∧ zeroAlert.latitude = some 0 ∧
    calculate_base_severity zeroAlert = min (SEVERITY_WEIGHTS zeroAlert.severity) 1 ∧
    calculate_confidence scenarioA_user zeroAlert =
      calculate_confidence scenarioA_user { zeroAlert with latitude := none } := by
  have h := zero_values_treated_as_missing scenarioA_user zeroAlert
  exact ⟨rfl, rfl, (h.1 rfl).2.1, h.2.1 rfl⟩

lemma map_eq_of_forall {α β : Type} (f g : α → β) :
    ∀ (l : List α), (∀ a ∈ l, f a = g a) → l.map f = l.map g := by
  intro l
  induction l with
  | nil => intro _; rfl
  | cons x xs ih =>
    intro h
    simp only [List.map_cons]
    rw [h x (List.mem_cons_self x xs), ih (fun a ha => h a (List.mem_cons_of_mem _ ha))]

/-- Every key of the default knowledge base is already lower-case. -/
lemma medical_knowledge_keys_lower :
    ∀ p ∈ medical_knowledge, pyLower p.1 = p.1 := by
  intro p hp
  fin_cases hp <;> rfl

lemma dictGet_key_mem {α : Type} {d : List (String × α)} {k : String}
    (h : dictGet d k ≠ none) : ∃ p ∈ d, p.1 = k := by
  cases hf : List.find? (fun p => p.1 == k) d with
  | none =>
    exfalso
    apply h
    unfold dictGet
    rw [hf]
    rfl
  | some p =>
    have hp := List.find?_some hf
    simp only [beq_iff_eq] at hp
    exact ⟨p, List.mem_of_find?_eq_some hf, hp⟩

/-- Claim C10: the knowledge-base lookup uses the alert's disease name
verbatim (no lower-casing), so for EVERY alert whose disease string differs
from a knowledge-base key only in letter case — its lower-casing is a key
but the string itself is not lower-case, e.g. "Dengue" — every condition
receives the neutral multiplier 1.0, and health vulnerability degenerates to
the bare severity weights; by contrast the learned-preference lookup
lower-cases the disease name before consulting `learned_weights`, so it
still finds the weight stored under the lower-cased key. -/
theorem kb_lookup_case_sensitive (user : UserProfile) (alert : HealthAlert)
    (hcase : alert.disease ≠ pyLower alert.disease)
    (hkey : dictGet medical_knowledge (pyLower alert.disease) ≠ none) :
    (∀ c : String, kb_multiplier alert.disease c = 1) ∧
    calculate_health_vulnerability user alert =
      (if user.health_conditions.isEmpty then 0
        else min (pyMax (user.health_conditions.map
          (fun c => condition_severity_weight c.severity))) 1) ∧
    (∀ w : ℚ, dictGet user.learned_weights (pyLower alert.disease) = some w →
      get_learned_preference user alert = w) := by
  have hmiss : dictGet medical_knowledge alert.disease = none := by
    by_contra hne
    obtain ⟨p, hmem, hpk⟩ := dictGet_key_mem hne
    have hlow := medical_knowledge_keys_lower p hmem
    rw [hpk] at hlow
    exact hcase hlow.symm
  have hkb : ∀ c : String, kb_multiplier alert.disease c = 1 := by
    intro c
    unfold kb_multiplier
    rw [hmiss]
  refine ⟨hkb, ?_, ?_⟩
  · unfold calculate_health_vulnerability
    by_cases h : user.health_conditions.isEmpty
    · rw [if_pos h, if_pos h]
    · rw [if_neg h, if_neg h]
      dsimp only
      refine congrArg (fun z => min z 1) ?_
      refine congrArg pyMax ?_
      apply map_eq_of_forall
      intro c hc
      rw [hkb (pyLower c.name), one_mul]
  · intro w hw
    unfold get_learned_preference
    rw [hw]

/-- Person with a learned weight stored under the lower-cased key "dengue". -/
def caseUser : UserProfile :=
  { user_id := "u3", name := "Cy", age := 40, location := "Recife, Brazil",
    health_conditions := [{ name := "diabetes", severity := "severe" }],
    learned_weights := [("dengue", 9/10)] }

/-- Alert whose disease string "Dengue" differs from the knowledge-base key
"dengue" only in case. -/
def caseAlert : HealthAlert :=
  { alert_id := "a2", disease := "Dengue", location := "Recife, Brazil",
    severity := .outbreak }

/-- Witness for C10: "Dengue" satisfies both hypotheses (it is not its own
lower-casing, and its lower-casing "dengue" is a knowledge-base key); then
the diabetic condition gets the neutral multiplier 1.0 while the
learned-preference lookup still finds the weight stored under "dengue". -/
theorem kb_lookup_case_sensitive_witness :
    caseAlert.disease ≠ pyLower caseAlert.disease ∧
    dictGet medical_knowledge (pyLower caseAlert.disease) ≠ none ∧
    kb_multiplier caseAlert.disease "diabetes" = 1 ∧
    get_learned_preference caseUser caseAlert = 9/10 := by
  have hcase : caseAlert.disease ≠ pyLower caseAlert.disease := by decide
  have hkey : dictGet medical_knowledge (pyLower caseAlert.disease) ≠ none :=
    fun h => Option.noConfusion h
  have h := kb_lookup_case_sensitive caseUser caseAlert hcase hkey
  exact ⟨hcase, hkey, h.1 "diabetes", h.2.2 (9/10) rfl⟩

end VitalSignal
